import Mathlib

/-!
Verification development for the modal-client in-container runtime.

Part A embeds the client session layer from `polyester/client.py`
(`Client._start`, `Client._stop`, `Client._heartbeat`, `Client.__aenter__`)
as explicit state-passing functions.

Part B embeds the container execution engine (input fetch loop, execution
dispatcher for PLAIN and GENERATOR shapes, failure classifier, startup
handling); its behaviour is modelled from the specification, with the
concrete values pinned by the repository test-suite.
-/

namespace ModalClient

/-! ## Part A: the client session layer (`polyester/client.py`) -/

/-- gRPC status codes relevant to `Client._start`: the two that are mapped
to dedicated errors, and every other code. -/
inductive StatusCode
  | unauthenticated
  | unavailable
  | other (name : String)
deriving DecidableEq, Repr

/-- Outcome of the `ClientCreate` identity handshake RPC: either the call
raises an `AioRpcError` with a status code and details, or it returns a
response carrying a client id string (possibly empty). -/
inductive HandshakeOutcome
  | rpcError (code : StatusCode) (details : String)
  | response (clientId : String)
deriving DecidableEq, Repr

/-- Errors `Client._start` can terminate with: the three mapped error
classes from `polyester/exception.py`, or the re-raised original RPC
error (the bare `raise` branch). -/
inductive ClientError
  | authError (msg : String)
  | connectionError (msg : String)
  | invalidError (msg : String)
  | rpcError (code : StatusCode) (details : String)
deriving DecidableEq, Repr

/-- The structured task supervisor (`TaskContext`), tracked by its number
of live supervised tasks. -/
structure TaskContext where
  tasks : Nat
deriving DecidableEq, Repr

/-- The RPC channel pool, tracked by whether it is open. -/
structure ChannelPool where
  active : Bool
deriving DecidableEq, Repr

/-- State of a `Client` object: the owned supervisor and channel pool
(`none` before creation), the assigned client id (`none` before the
handshake response is stored), and whether the heartbeat loop was
spawned. -/
structure Client where
  serverUrl : String
  taskContext : Option TaskContext
  channelPool : Option ChannelPool
  clientId : Option String
  heartbeatStarted : Bool
deriving DecidableEq, Repr

/-- A freshly constructed `Client` (`Client.__init__`): no supervisor, no
channel pool, no client id, no heartbeat. -/
def initClient (url : String) : Client :=
  { serverUrl := url, taskContext := none, channelPool := none,
    clientId := none, heartbeatStarted := false }

/-- `Client._start`: creates and starts the `TaskContext` and the
`ChannelPool`, performs the `ClientCreate` handshake, maps
`UNAUTHENTICATED` to `AuthError`, `UNAVAILABLE` to `ConnectionError`,
re-raises any other RPC error, stores the returned client id, raises
`InvalidError` when it is empty, and only then spawns the heartbeat loop
under the supervisor.  Returns the client state as left when the call
returns or the exception propagates, paired with the raised error if
any. -/
def clientStart (c : Client) (outcome : HandshakeOutcome) :
    Client × Option ClientError :=
  let c1 : Client :=
    { c with taskContext := some { tasks := 0 },
             channelPool := some { active := true } }
  match outcome with
  | .rpcError code details =>
    match code with
    | .unauthenticated =>
      (c1, some (.authError ("Connecting to " ++ c1.serverUrl ++ ": " ++ details)))
    | .unavailable =>
      (c1, some (.connectionError ("Connecting to " ++ c1.serverUrl ++ ": " ++ details)))
    | .other n => (c1, some (.rpcError (.other n) details))
  | .response cid =>
    let c2 : Client := { c1 with clientId := some cid }
    if cid = "" then
      (c2, some (.invalidError "Did not get a client id from server"))
    else
      ({ c2 with heartbeatStarted := true,
                 taskContext := c2.taskContext.map fun t =>
                   { t with tasks := t.tasks + 1 } },
       none)

/-- The request built by `Client._heartbeat`:
`ClientHeartbeatRequest(client_id=self.client_id)`. -/
structure ClientHeartbeatRequest where
  clientId : String
deriving DecidableEq, Repr

/-- `Client._heartbeat` builds its request from the stored client id
(empty when the attribute was never set, which never happens once the
loop runs). -/
def clientHeartbeat (c : Client) : ClientHeartbeatRequest :=
  { clientId := c.clientId.getD "" }

/-- Number of live supervised background tasks owned by a client. -/
def liveTasks (c : Client) : Nat :=
  match c.taskContext with
  | some t => t.tasks
  | none => 0

/-- Teardown events in the order `Client._stop` performs them. -/
inductive StopEvent
  | supervisorStop
  | poolClose
deriving DecidableEq, Repr

/-- `TaskContext.stop` — Modelled from the spec: the structured task
supervisor's `stop()` cancels every spawned task, awaits their
termination and swallows the resulting cancellation signals, so it
always returns with an empty task set (its implementation is not in the
sources, only its call sites). -/
def TaskContext.stop (_t : TaskContext) : TaskContext :=
  { tasks := 0 }

/-- `ChannelPool.close` — Modelled from the spec: closing the channel
pool shuts its connections (its implementation is not in the sources,
only its call sites). -/
def ChannelPool.close (_p : ChannelPool) : ChannelPool :=
  { active := false }

/-- `Client._stop`: stops the supervisor if one was created, then closes
the channel pool if one was created.  Returns the new state and the
trace of teardown events in order. -/
def clientStop (c : Client) : Client × List StopEvent :=
  let p1 : Client × List StopEvent :=
    match c.taskContext with
    | some t => ({ c with taskContext := some t.stop }, [StopEvent.supervisorStop])
    | none => (c, [])
  let p2 : Client × List StopEvent :=
    match p1.1.channelPool with
    | some p => ({ p1.1 with channelPool := some p.close }, [StopEvent.poolClose])
    | none => (p1.1, [])
  (p2.1, p1.2 ++ p2.2)

/-- `Client.__aenter__`: runs `_start`; should it raise, runs `_stop` and
re-raises.  Returns the final state, the propagated error if any, and
the teardown events that ran. -/
def clientAenter (c : Client) (outcome : HandshakeOutcome) :
    Client × Option ClientError × List StopEvent :=
  let p := clientStart c outcome
  match p.2 with
  | some e =>
    let q := clientStop p.1
    (q.1, some e, q.2)
  | none => (p.1, none, [])

/-! ## Part B: the container execution engine

`modal/_container_entrypoint.py` itself is not among the sources (only its
tests in `client_test/container_test.py` are), so the engine is modelled
from the specification, with the concrete payloads pinned by the tests. -/

/-- Result statuses of a `GenericResult`. -/
inductive GenericStatus
  | success
  | failure
deriving DecidableEq, Repr

/-- Generator sub-statuses of a `GenericResult`. -/
inductive GenStatus
  | unspecified
  | incomplete
  | complete
deriving DecidableEq, Repr

/-- Modelled from the spec: serialized payload bytes, as a tagged value so
that deserialization is exact — the empty payload, a serialized number, a
serialized exception with its argument tuple, and the two dedicated
startup-error kinds (import failure and invalid configuration). -/
inductive Payload
  | empty
  | nat (n : Nat)
  | exc (args : List String)
  | importError (msg : String)
  | invalidError (msg : String)
deriving DecidableEq, Repr

/-- Modelled from the spec: serialization of a numeric value into payload
bytes. -/
def serialize (n : Nat) : Payload := .nat n

/-- An `ExecutionResult` (`GenericResult` on the wire): status, generator
sub-status, payload bytes, one-line exception summary and textual
traceback. -/
structure GenericResult where
  status : GenericStatus
  genStatus : GenStatus
  data : Payload
  excSummary : String
  traceback : String
deriving DecidableEq, Repr

/-- An `OutputItem`: input id, generator sequence index, and the result. -/
structure OutputItem where
  inputId : String
  genIndex : Nat
  result : GenericResult
deriving DecidableEq, Repr

/-- A `WorkItem` fetched from `FunctionGetInputs`: input id, deserialized
positional arguments, and the kill-switch flag (a kill-switch item carries
no payload and ends the invocation). -/
structure WorkItem where
  inputId : String
  args : List Nat
  killSwitch : Bool
deriving DecidableEq, Repr

/-- Modelled from the spec: outcome of invoking a PLAIN-shape user
callable — a returned value, an ordinary user exception, a deliberate
process-exit signal with its code, or an external interruption signal. -/
inductive CallResult
  | value (v : Nat)
  | raisesExc (args : List String)
  | sysExit (code : Nat)
  | keyboardInt
deriving DecidableEq, Repr

/-- Modelled from the spec: outcome of driving a GENERATOR-shape user
callable — the finite sequence of produced values, either exhausted
without error or terminated by an exception after some prefix. -/
inductive GenOutcome
  | yields (vs : List Nat)
  | failsAfter (vs : List Nat) (args : List String)
deriving DecidableEq, Repr

/-- A user callable together with its declared execution shape. -/
inductive Callable
  | plain (f : List Nat → CallResult)
  | gen (g : List Nat → GenOutcome)

/-- Fatal errors that propagate out of the runtime entrypoint. -/
inductive RunError
  | transport (status : String)
  | keyboardInterrupt
deriving DecidableEq, Repr

/-- A single `FunctionGetInputs` response: a batch of work items, or a
transport failure raised by the RPC. -/
inductive FetchResult
  | batch (items : List WorkItem)
  | transportError (status : String)
deriving DecidableEq, Repr

/-- One SUCCESS output for a PLAIN result value. -/
def successItem (inputId : String) (v : Nat) : OutputItem :=
  { inputId, genIndex := 0,
    result := { status := .success, genStatus := .unspecified,
                data := serialize v, excSummary := "", traceback := "" } }

/-- Modelled from the spec (failure classifier): one FAILURE output for an
ordinary user exception, carrying the serialized exception object. -/
def userFailureItem (inputId : String) (args : List String) : OutputItem :=
  { inputId, genIndex := 0,
    result := { status := .failure, genStatus := .unspecified,
                data := .exc args, excSummary := "Exception",
                traceback := "Traceback" } }

/-- Modelled from the spec (failure classifier): one FAILURE output for a
deliberate process-exit signal, whose summary encodes the exit code. -/
def sysExitItem (inputId : String) (code : Nat) : OutputItem :=
  { inputId, genIndex := 0,
    result := { status := .failure, genStatus := .unspecified,
                data := .exc [toString code],
                excSummary := "SystemExit(" ++ toString code ++ ")",
                traceback := "Traceback" } }

/-- One SUCCESS/INCOMPLETE output for a produced generator value. -/
def incompleteItem (inputId : String) (idx v : Nat) : OutputItem :=
  { inputId, genIndex := idx,
    result := { status := .success, genStatus := .incomplete,
                data := serialize v, excSummary := "", traceback := "" } }

/-- The SUCCESS/COMPLETE generator termination marker, with empty
payload. -/
def completeItem (inputId : String) (idx : Nat) : OutputItem :=
  { inputId, genIndex := idx,
    result := { status := .success, genStatus := .complete,
                data := .empty, excSummary := "", traceback := "" } }

/-- The FAILURE output terminating a generator stream after an exception:
sub-status UNSPECIFIED, payload the serialized exception. -/
def genFailureItem (inputId : String) (idx : Nat) (args : List String) :
    OutputItem :=
  { inputId, genIndex := idx,
    result := { status := .failure, genStatus := .unspecified,
                data := .exc args, excSummary := "Exception",
                traceback := "Traceback" } }

/-- The INCOMPLETE items for a list of produced values, indexed from
`idx`. -/
def genItems (inputId : String) : Nat → List Nat → List OutputItem
  | _, [] => []
  | idx, v :: vs => incompleteItem inputId idx v :: genItems inputId (idx + 1) vs

/-- Modelled from the spec (execution dispatcher, GENERATOR shape): emit
one SUCCESS/INCOMPLETE item per produced value with increasing index from
0, then the COMPLETE marker on exhaustion, or one FAILURE item
(sub-status UNSPECIFIED) in place of the marker when the callable
raises — already-emitted items are kept. -/
def runGenerator (inputId : String) (g : GenOutcome) : List OutputItem :=
  match g with
  | .yields vs => genItems inputId 0 vs ++ [completeItem inputId vs.length]
  | .failsAfter vs args => genItems inputId 0 vs ++ [genFailureItem inputId vs.length args]

/-- Modelled from the spec (execution dispatcher): run one work item
through the callable; a deliberate exit signal is classified as a FAILURE
result, an external interruption signal propagates and produces no
output item. -/
def dispatch (call : Callable) (w : WorkItem) :
    Except RunError (List OutputItem) :=
  match call with
  | .plain f =>
    match f w.args with
    | .value v => .ok [successItem w.inputId v]
    | .raisesExc args => .ok [userFailureItem w.inputId args]
    | .sysExit code => .ok [sysExitItem w.inputId code]
    | .keyboardInt => .error .keyboardInterrupt
  | .gen g => .ok (runGenerator w.inputId (g w.args))

/-- Dispatch a list of work items in order, stopping at the first
propagating signal; returns the emitted outputs and the propagated
error, if any. -/
def processItems (call : Callable) : List WorkItem → List OutputItem × Option RunError
  | [] => ([], none)
  | w :: ws =>
    match dispatch call w with
    | .error e => ([], some e)
    | .ok out =>
      let p := processItems call ws
      (out ++ p.1, p.2)

/-- Modelled from the spec (input fetch loop + dispatcher + output
emission): consume fetch responses in order; a transport failure is fatal
and ends the run at once; a batch's items before any kill switch are
dispatched; a kill-switch item ends the loop and is never dispatched. -/
def runLoop (call : Callable) : List FetchResult → List OutputItem × Option RunError
  | [] => ([], none)
  | .transportError s :: _ => ([], some (.transport s))
  | .batch items :: rest =>
    let real := items.takeWhile fun w => !w.killSwitch
    let p := processItems call real
    match p.2 with
    | some e => (p.1, some e)
    | none =>
      if items.any fun w => w.killSwitch then (p.1, none)
      else
        let q := runLoop call rest
        (p.1 ++ q.1, q.2)

/-- The work items the fetch loop hands to the dispatcher, for a given
response stream. -/
def collectItems : List FetchResult → List WorkItem
  | [] => []
  | .transportError _ :: _ => []
  | .batch items :: rest =>
    let real := items.takeWhile fun w => !w.killSwitch
    if items.any fun w => w.killSwitch then real
    else real ++ collectItems rest

/-- Outcome of importing the target module at startup: success, an import
failure, or a module lacking the expected invocation guard. -/
inductive ImportOutcome
  | success
  | importFailed (msg : String)
  | missingMainGuard (moduleName : String)
deriving DecidableEq, Repr

/-- The invocation-guard line whose absence is diagnosed. -/
def mainGuardString : String := "if __name__ == \"__main__\":"

/-- The whole-invocation result reported through `TaskResult`. -/
structure TaskResult where
  status : GenericStatus
  data : Payload
  traceback : String
deriving DecidableEq, Repr

/-- Modelled from the spec (failure classifier, startup failures): a
failed import is reported as a FAILURE whose serialized exception
reconstructs as the import-failure kind. -/
def importFailureTaskResult (msg : String) : TaskResult :=
  { status := .failure, data := .importError msg,
    traceback := "Traceback: ImportError: " ++ msg }

/-- Modelled from the spec (failure classifier, startup failures): a
module lacking the invocation guard is reported as a FAILURE whose
serialized exception reconstructs as the invalid-configuration kind, with
the missing guard named in the traceback. -/
def missingGuardTaskResult (moduleName : String) : TaskResult :=
  { status := .failure,
    data := .invalidError ("module " ++ moduleName ++ " lacks " ++ mainGuardString),
    traceback := "Traceback: module " ++ moduleName ++ " has no "
      ++ mainGuardString ++ " block" }

/-- The observable outcome of one container invocation: the
whole-invocation task result if one was reported, the per-input output
items emitted, and the fatal error that propagated out, if any. -/
structure ContainerRun where
  taskResult : Option TaskResult
  outputs : List OutputItem
  error : Option RunError
deriving DecidableEq, Repr

/-- Modelled from the spec (runtime entrypoint): a startup failure is
reported as a single whole-invocation FAILURE before any input is
processed; otherwise the fetch/execute/emit loop runs. -/
def containerMain (imp : ImportOutcome) (call : Callable)
    (responses : List FetchResult) : ContainerRun :=
  match imp with
  | .importFailed msg =>
    { taskResult := some (importFailureTaskResult msg), outputs := [], error := none }
  | .missingMainGuard m =>
    { taskResult := some (missingGuardTaskResult m), outputs := [], error := none }
  | .success =>
    let p := runLoop call responses
    { taskResult := none, outputs := p.1, error := p.2 }

/-- Modelled from the test-support module: `gen_n(n)` yields `i**2` for
`i` in `range(n)`. -/
def gen_n (n : Nat) : GenOutcome :=
  .yields ((List.range n).map fun i => i * i)

/-- Modelled from the test-support module: `gen_n_fail_on_m(n, m)` yields
`i**2` for `i` below `m` and raises `Exception("bad")` when it reaches
`m`, provided `m` is within `range(n)`. -/
def gen_n_fail_on_m (n m : Nat) : GenOutcome :=
  if m < n then .failsAfter ((List.range m).map fun i => i * i) ["bad"]
  else .yields ((List.range n).map fun i => i * i)

/-- Modelled from the test-support module: a callable that raises
`SystemExit(1)`. -/
def raises_sysexit : List Nat → CallResult := fun _ => .sysExit 1

/-- Modelled from the test-support module: a callable that raises
`KeyboardInterrupt`. -/
def raises_keyboardinterrupt : List Nat → CallResult := fun _ => .keyboardInt

/-- The input stream the test harness serves: one real work item with id
`in-xyz` and the given arguments, then a kill-switch item. -/
def stdResponses (args : List Nat) : List FetchResult :=
  [ .batch [{ inputId := "in-xyz", args := args, killSwitch := false }],
    .batch [{ inputId := "", args := [], killSwitch := true }] ]

/-- The `gen_n` test callable bound to its single positional argument. -/
def genNCallable : Callable := .gen fun a => gen_n (a.headD 0)

/-- The `gen_n_fail_on_m` test callable bound to its two positional
arguments. -/
def genNFailCallable : Callable := .gen fun a =>
  match a with
  | [n, m] => gen_n_fail_on_m n m
  | _ => .yields []

/-- Output items of the generator-success run of the test-suite
(`gen_n`, argument 42). -/
def c2Outputs : List OutputItem :=
  (containerMain .success genNCallable (stdResponses [42])).outputs

/-- Output items of the generator-failure run of the test-suite
(`gen_n_fail_on_m`, arguments (10, 5)). -/
def c3Outputs : List OutputItem :=
  (containerMain .success genNFailCallable (stdResponses [10, 5])).outputs

/-- The run where user code raises the deliberate process-exit signal. -/
def c5RunExit : ContainerRun :=
  containerMain .success (.plain raises_sysexit) (stdResponses [42])

/-- The run where user code raises the external interruption signal. -/
def c5RunInterrupt : ContainerRun :=
  containerMain .success (.plain raises_keyboardinterrupt) (stdResponses [42])

/-- A tiny concrete generator semantics used to instantiate the ordering
invariant: fails immediately with `Exception("bad")`. -/
def c1SampleGen : List Nat → GenOutcome := fun _ => .failsAfter [0, 1] ["bad"]

/-- A concrete response stream used to instantiate the ordering
invariant. -/
def c1SampleResponses : List FetchResult := stdResponses [2]

/-- The concrete work item of `c1SampleResponses`. -/
def c1SampleItem : WorkItem := { inputId := "in-xyz", args := [2], killSwitch := false }

/-- A one-request batching of the sample run's outputs. -/
def c1SampleBatches : List (List OutputItem) :=
  [(containerMain .success (.gen c1SampleGen) c1SampleResponses).outputs]

/-- A concrete callable used to instantiate the transport-failure
theorem. -/
def c8SampleCall : Callable := .plain fun a => .value (a.headD 0 * a.headD 0)

/-- Concrete pre-failure batches used to instantiate the
transport-failure theorem. -/
def c8SampleBatches : List (List WorkItem) :=
  [[{ inputId := "in-1", args := [6], killSwitch := false }]]

/-! ## Helper lemmas -/

theorem genItems_map_genIndex (inputId : String) (i : Nat) (vs : List Nat) :
    (genItems inputId i vs).map (fun x => x.genIndex) = List.range' i vs.length := by
  induction vs generalizing i with
  | nil => simp [genItems]
  | cons v vs ih =>
    simp [genItems, incompleteItem, List.range'_succ, ih]

theorem genItems_length (inputId : String) (i : Nat) (vs : List Nat) :
    (genItems inputId i vs).length = vs.length := by
  induction vs generalizing i with
  | nil => rfl
  | cons v vs ih => simp [genItems, ih]

theorem genItems_inputId (inputId : String) (i : Nat) (vs : List Nat)
    (x : OutputItem) (hx : x ∈ genItems inputId i vs) : x.inputId = inputId := by
  induction vs generalizing i with
  | nil => cases hx
  | cons v vs ih =>
    rcases List.mem_cons.mp hx with rfl | h
    · rfl
    · exact ih _ h

theorem runGenerator_inputId (inputId : String) (g : GenOutcome)
    (x : OutputItem) (hx : x ∈ runGenerator inputId g) : x.inputId = inputId := by
  cases g with
  | yields vs =>
    rcases List.mem_append.mp hx with h | h
    · exact genItems_inputId inputId 0 vs x h
    · rcases List.mem_singleton.mp h with rfl; rfl
  | failsAfter vs args =>
    rcases List.mem_append.mp hx with h | h
    · exact genItems_inputId inputId 0 vs x h
    · rcases List.mem_singleton.mp h with rfl; rfl

theorem runGenerator_map_genIndex (inputId : String) (g : GenOutcome) :
    (runGenerator inputId g).map (fun x => x.genIndex) =
      List.range (runGenerator inputId g).length := by
  cases g with
  | yields vs =>
    simp [runGenerator, genItems_map_genIndex, genItems_length, completeItem,
      List.range_succ, List.range_eq_range']
  | failsAfter vs args =>
    simp [runGenerator, genItems_map_genIndex, genItems_length, genFailureItem,
      List.range_succ, List.range_eq_range']

theorem runGenerator_last_status (inputId : String) (g : GenOutcome) :
    ∃ last, (runGenerator inputId g).getLast? = some last ∧
      ((last.result.genStatus = GenStatus.complete ∧
        last.result.status = GenericStatus.success) ∨
       (last.result.status = GenericStatus.failure ∧
        last.result.genStatus = GenStatus.unspecified)) := by
  cases g with
  | yields vs =>
    exact ⟨completeItem inputId vs.length,
      by simp [runGenerator, List.getLast?_concat], Or.inl ⟨rfl, rfl⟩⟩
  | failsAfter vs args =>
    exact ⟨genFailureItem inputId vs.length args,
      by simp [runGenerator, List.getLast?_concat], Or.inr ⟨rfl, rfl⟩⟩

theorem filter_flatMap_inputId (f : WorkItem → List OutputItem)
    (hf : ∀ u x, x ∈ f u → x.inputId = u.inputId)
    (items : List WorkItem)
    (hd : (items.map fun u => u.inputId).Nodup)
    (w : WorkItem) (hw : w ∈ items) :
    (items.flatMap f).filter (fun x => x.inputId == w.inputId) = f w := by
  induction items with
  | nil => cases hw
  | cons a t ih =>
    rw [List.map_cons, List.nodup_cons] at hd
    obtain ⟨ha, hd'⟩ := hd
    rw [List.flatMap_cons, List.filter_append]
    rcases List.mem_cons.mp hw with rfl | hwt
    · have h1 : (f w).filter (fun x => x.inputId == w.inputId) = f w := by
        apply List.filter_eq_self.mpr
        intro x hx
        simp [hf w x hx]
      have h2 : (t.flatMap f).filter (fun x => x.inputId == w.inputId) = [] := by
        apply List.filter_eq_nil_iff.mpr
        intro x hx
        obtain ⟨u, hu, hxu⟩ := List.mem_flatMap.mp hx
        have hxid : x.inputId = u.inputId := hf u x hxu
        have hne : u.inputId ≠ w.inputId := by
          intro h
          exact ha (h ▸ List.mem_map_of_mem (fun u => u.inputId) hu)
        simp [hxid, hne]
      rw [h1, h2, List.append_nil]
    · have h1 : (f a).filter (fun x => x.inputId == w.inputId) = [] := by
        apply List.filter_eq_nil_iff.mpr
        intro x hx
        have hxa : x.inputId = a.inputId := hf a x hx
        have hne : a.inputId ≠ w.inputId := by
          intro h
          exact ha (h ▸ List.mem_map_of_mem (fun u => u.inputId) hwt)
        simp [hxa, hne]
      rw [h1, ih hd' hwt, List.nil_append]

theorem processItems_gen (g : List Nat → GenOutcome) (items : List WorkItem) :
    processItems (.gen g) items =
      (items.flatMap fun u => runGenerator u.inputId (g u.args), none) := by
  induction items with
  | nil => simp [processItems]
  | cons w ws ih => simp [processItems, dispatch, ih]

theorem runLoop_gen_outputs (g : List Nat → GenOutcome)
    (responses : List FetchResult) :
    (runLoop (.gen g) responses).1 =
      (collectItems responses).flatMap fun u => runGenerator u.inputId (g u.args) := by
  induction responses with
  | nil => simp [runLoop, collectItems]
  | cons r rest ih =>
    cases r with
    | transportError s => simp [runLoop, collectItems]
    | batch items =>
      by_cases h : items.any fun w => w.killSwitch
      · simp [runLoop, collectItems, processItems_gen, h]
      · simp [runLoop, collectItems, processItems_gen, h, ih]

theorem takeWhile_noKill (b : List WorkItem)
    (h : ∀ u ∈ b, u.killSwitch = false) :
    b.takeWhile (fun w => !w.killSwitch) = b := by
  induction b with
  | nil => rfl
  | cons u t ih =>
    rw [List.takeWhile_cons]
    simp only [h u (List.mem_cons_self u t), Bool.not_false, if_true]
    rw [ih fun v hv => h v (List.mem_cons_of_mem u hv)]

theorem runLoop_transport (call : Callable) (batches : List (List WorkItem))
    (status : String) (rest : List FetchResult)
    (hnk : ∀ b ∈ batches, ∀ u ∈ b, u.killSwitch = false)
    (hne : ∀ b ∈ batches, (processItems call b).2 = none) :
    runLoop call (batches.map FetchResult.batch ++
        FetchResult.transportError status :: rest) =
      ((batches.map fun b => (processItems call b).1).flatten,
        some (RunError.transport status)) := by
  induction batches with
  | nil => simp [runLoop]
  | cons b bs ih =>
    have hbk : ∀ u ∈ b, u.killSwitch = false := hnk b (List.mem_cons_self b bs)
    have h1 : b.takeWhile (fun w => !w.killSwitch) = b := takeWhile_noKill b hbk
    have h2 : (b.any fun w => w.killSwitch) = false :=
      List.any_eq_false.mpr fun u hu => by simp [hbk u hu]
    have hbe : (processItems call b).2 = none := hne b (List.mem_cons_self b bs)
    have ih2 := ih (fun c hc => hnk c (List.mem_cons_of_mem b hc))
      (fun c hc => hne c (List.mem_cons_of_mem b hc))
    simp [runLoop, h1, h2, hbe, ih2]

theorem clientStart_resources (c : Client) (outcome : HandshakeOutcome) :
    ∃ t p, (clientStart c outcome).1.taskContext = some t ∧
      (clientStart c outcome).1.channelPool = some p := by
  cases outcome with
  | rpcError code details => cases code <;> exact ⟨_, _, rfl, rfl⟩
  | response cid => by_cases h : cid = "" <;> simp [clientStart, h]

theorem clientStop_of_resources (c : Client) (t : TaskContext) (p : ChannelPool)
    (ht : c.taskContext = some t) (hp : c.channelPool = some p) :
    clientStop c =
      ({ c with taskContext := some { tasks := 0 },
                channelPool := some { active := false } },
        [StopEvent.supervisorStop, StopEvent.poolClose]) := by
  simp [clientStop, ht, hp, TaskContext.stop, ChannelPool.close]

/-! ## Claim theorems -/

/-- Claim C1: for every GENERATOR-shape run and every input id, the
`gen_index` values of the OutputItems emitted for that input id form
exactly the sequence 0,1,...,k — contiguous from 0, strictly increasing,
no gaps, duplicates or reordering, regardless of how the items are
batched into put-outputs requests — and the final OutputItem for that
input id carries either the COMPLETE sub-status (with SUCCESS) or a
FAILURE status (with sub-status UNSPECIFIED), never both. -/
theorem generator_index_invariant (g : List Nat → GenOutcome)
    (responses : List FetchResult)
    (hd : ((collectItems responses).map fun u => u.inputId).Nodup)
    (w : WorkItem) (hw : w ∈ collectItems responses)
    (bs : List (List OutputItem))
    (hbs : bs.flatten = (containerMain .success (.gen g) responses).outputs) :
    ((bs.flatten.filter fun x => x.inputId == w.inputId).map fun x => x.genIndex) =
      List.range (bs.flatten.filter fun x => x.inputId == w.inputId).length ∧
    ∃ last,
      (bs.flatten.filter fun x => x.inputId == w.inputId).getLast? = some last ∧
      ((last.result.genStatus = GenStatus.complete ∧
        last.result.status = GenericStatus.success) ∨
       (last.result.status = GenericStatus.failure ∧
        last.result.genStatus = GenStatus.unspecified)) := by
  have houts : (containerMain .success (.gen g) responses).outputs =
      (collectItems responses).flatMap fun u => runGenerator u.inputId (g u.args) := by
    simp [containerMain, runLoop_gen_outputs]
  rw [hbs, houts,
    filter_flatMap_inputId _
      (fun u x hx => runGenerator_inputId u.inputId (g u.args) x hx) _ hd w hw]
  exact ⟨runGenerator_map_genIndex w.inputId (g w.args),
    runGenerator_last_status w.inputId (g w.args)⟩

/-- Witness for C1 at a concrete run: a generator that fails after two
values, served through the standard test input stream, batched as one
request. -/
theorem generator_index_invariant_witness :
    (((collectItems c1SampleResponses).map fun u => u.inputId).Nodup ∧
     c1SampleItem ∈ collectItems c1SampleResponses ∧
     c1SampleBatches.flatten =
       (containerMain .success (.gen c1SampleGen) c1SampleResponses).outputs) ∧
    ((c1SampleBatches.flatten.filter fun x => x.inputId == c1SampleItem.inputId).map
        fun x => x.genIndex) =
      List.range (c1SampleBatches.flatten.filter
        fun x => x.inputId == c1SampleItem.inputId).length ∧
    ∃ last,
      (c1SampleBatches.flatten.filter
        fun x => x.inputId == c1SampleItem.inputId).getLast? = some last ∧
      ((last.result.genStatus = GenStatus.complete ∧
        last.result.status = GenericStatus.success) ∨
       (last.result.status = GenericStatus.failure ∧
        last.result.genStatus = GenStatus.unspecified)) :=
  ⟨⟨by decide, by decide, by decide⟩,
    generator_index_invariant c1SampleGen c1SampleResponses (by decide)
      c1SampleItem (by decide) c1SampleBatches (by decide)⟩

/-- Claim C2: a GENERATOR-shape function producing N = 42 values without
error emits exactly 43 OutputItems — the first 42 with SUCCESS status,
INCOMPLETE sub-status, strictly increasing indices 0..41 and payload the
serialization of i*i for index i, followed by one item with SUCCESS
status, COMPLETE sub-status and empty payload. -/
theorem generator_completeness :
    c2Outputs.length = 43 ∧
    ((c2Outputs.take 42).map fun x =>
        (x.genIndex, x.result.status, x.result.genStatus, x.result.data)) =
      ((List.range 42).map fun i =>
        (i, GenericStatus.success, GenStatus.incomplete, serialize (i * i))) ∧
    (c2Outputs.getLast?.map fun x =>
        (x.result.status, x.result.genStatus, x.result.data)) =
      some (GenericStatus.success, GenStatus.complete, Payload.empty) := by
  refine ⟨by decide, by decide, by decide⟩

/-- Claim C3: a GENERATOR-shape function given (N = 10, fail-at = 5)
emits exactly 5 INCOMPLETE items (indices 0..4, payload i*i) followed by
exactly one FAILURE item with sub-status UNSPECIFIED whose payload
reconstructs an exception with arguments ("bad",); the total count is 6
and never 11, no COMPLETE marker is emitted, and the already-emitted
successful items remain in the output stream. -/
theorem generator_partial_failure :
    c3Outputs.length = 6 ∧
    ((c3Outputs.take 5).map fun x =>
        (x.genIndex, x.result.status, x.result.genStatus, x.result.data)) =
      ((List.range 5).map fun i =>
        (i, GenericStatus.success, GenStatus.incomplete, serialize (i * i))) ∧
    (c3Outputs.getLast?.map fun x =>
        (x.result.status, x.result.genStatus, x.result.data)) =
      some (GenericStatus.failure, GenStatus.unspecified, Payload.exc ["bad"]) ∧
    (∀ x ∈ c3Outputs, x.result.genStatus ≠ GenStatus.complete) ∧
    c3Outputs.length ≠ 11 := by
  refine ⟨by decide, by decide, by decide, by decide, by decide⟩

/-- Claim C4: session start fails with AuthError exactly when the
handshake is rejected as UNAUTHENTICATED, with ConnectionError exactly
when the endpoint is UNAVAILABLE, with InvalidError when the handshake
succeeds but returns an empty client id; on success it assigns the
returned client id. -/
theorem session_start_error_taxonomy (c : Client) (outcome : HandshakeOutcome) :
    ((∃ m, (clientStart c outcome).2 = some (ClientError.authError m)) ↔
      (∃ d, outcome = HandshakeOutcome.rpcError StatusCode.unauthenticated d)) ∧
    ((∃ m, (clientStart c outcome).2 = some (ClientError.connectionError m)) ↔
      (∃ d, outcome = HandshakeOutcome.rpcError StatusCode.unavailable d)) ∧
    ((∃ m, (clientStart c outcome).2 = some (ClientError.invalidError m)) ↔
      outcome = HandshakeOutcome.response "") ∧
    (∀ cid, outcome = HandshakeOutcome.response cid → cid ≠ "" →
      (clientStart c outcome).2 = none ∧
      (clientStart c outcome).1.clientId = some cid) := by
  cases outcome with
  | rpcError code details => cases code <;> simp [clientStart]
  | response cid => by_cases h : cid = "" <;> simp [clientStart, h]

/-- Witness for C4 at a successful handshake returning client id
`cl-123`. -/
theorem session_start_error_taxonomy_witness :
    HandshakeOutcome.response "cl-123" = HandshakeOutcome.response "cl-123" ∧
    "cl-123" ≠ "" ∧
    (clientStart (initClient "srv") (HandshakeOutcome.response "cl-123")).2 = none ∧
    (clientStart (initClient "srv") (HandshakeOutcome.response "cl-123")).1.clientId =
      some "cl-123" :=
  ⟨rfl, by decide,
    (session_start_error_taxonomy (initClient "srv")
      (HandshakeOutcome.response "cl-123")).2.2.2 "cl-123" rfl (by decide)⟩

/-- Claim C5: a deliberate process-exit signal (exit code 1) is captured
and reported as exactly one FAILURE OutputItem whose summary encodes the
exit code, and the runtime does not crash; an external interruption
signal is not captured — it propagates out of the whole runtime and no
OutputItem is reported for that input. -/
theorem exit_captured_interrupt_propagates :
    c5RunExit.outputs.length = 1 ∧
    (c5RunExit.outputs.map fun x => (x.result.status, x.result.excSummary)) =
      [(GenericStatus.failure, "SystemExit(1)")] ∧
    c5RunExit.error = none ∧
    c5RunInterrupt.error = some RunError.keyboardInterrupt ∧
    c5RunInterrupt.outputs = [] := by
  refine ⟨by decide, by decide, by decide, by decide, by decide⟩

/-- Claim C6: session stop is idempotent and total in every state — it
leaves no background task running, stopping twice is the same as
stopping once, the supervisor is torn down before the channel pool, and
the scoped-acquisition context runs stop on the exit path where start
itself raised. -/
theorem session_stop_idempotent (c : Client) (outcome : HandshakeOutcome) :
    liveTasks (clientStop c).1 = 0 ∧
    clientStop (clientStop c).1 = ((clientStop c).1, (clientStop c).2) ∧
    List.Sublist (clientStop c).2
      [StopEvent.supervisorStop, StopEvent.poolClose] ∧
    (∀ e, (clientStart c outcome).2 = some e →
      clientAenter c outcome =
        ((clientStop (clientStart c outcome).1).1, some e,
          [StopEvent.supervisorStop, StopEvent.poolClose]) ∧
      liveTasks (clientAenter c outcome).1 = 0) := by
  obtain ⟨url, tc, cp, cid, hb⟩ := c
  refine ⟨?_, ?_, ?_, ?_⟩
  · cases tc <;> cases cp <;>
      simp [clientStop, liveTasks, TaskContext.stop, ChannelPool.close]
  · cases tc <;> cases cp <;>
      simp [clientStop, TaskContext.stop, ChannelPool.close]
  · cases tc <;> cases cp <;>
      simp only [clientStop, TaskContext.stop, ChannelPool.close] <;>
      first
        | exact List.nil_sublist _
        | exact List.Sublist.cons₂ _ (List.nil_sublist _)
        | exact List.Sublist.cons _ (List.Sublist.refl _)
        | exact List.Sublist.refl _
  · intro e he
    obtain ⟨t, p, ht, hp⟩ :=
      clientStart_resources ⟨url, tc, cp, cid, hb⟩ outcome
    have hstop := clientStop_of_resources _ t p ht hp
    have haen : clientAenter ⟨url, tc, cp, cid, hb⟩ outcome =
        ((clientStop (clientStart ⟨url, tc, cp, cid, hb⟩ outcome).1).1, some e,
          (clientStop (clientStart ⟨url, tc, cp, cid, hb⟩ outcome).1).2) := by
      simp [clientAenter, he]
    rw [haen, hstop]
    exact ⟨rfl, rfl⟩

/-- Witness for C6: stopping a fresh client, and entering the scoped
context against an unreachable endpoint, which tears down in order and
leaves no task running. -/
theorem session_stop_idempotent_witness :
    liveTasks (clientStop (initClient "srv")).1 = 0 ∧
    (clientStart (initClient "srv")
        (HandshakeOutcome.rpcError StatusCode.unavailable "down")).2 =
      some (ClientError.connectionError "Connecting to srv: down") ∧
    clientAenter (initClient "srv")
        (HandshakeOutcome.rpcError StatusCode.unavailable "down") =
      ((clientStop (clientStart (initClient "srv")
          (HandshakeOutcome.rpcError StatusCode.unavailable "down")).1).1,
        some (ClientError.connectionError "Connecting to srv: down"),
        [StopEvent.supervisorStop, StopEvent.poolClose]) ∧
    liveTasks (clientAenter (initClient "srv")
        (HandshakeOutcome.rpcError StatusCode.unavailable "down")).1 = 0 :=
  ⟨(session_stop_idempotent (initClient "srv")
      (HandshakeOutcome.rpcError StatusCode.unavailable "down")).1,
   by decide,
   (session_stop_idempotent (initClient "srv")
      (HandshakeOutcome.rpcError StatusCode.unavailable "down")).2.2.2
     (ClientError.connectionError "Connecting to srv: down") (by decide)⟩

/-- Claim C7: a startup failure — failed import or missing invocation
guard — is reported as exactly one whole-invocation FAILURE result before
any input is processed, reconstructing as the dedicated error kind
(import-failure, or invalid-configuration with the guard named in the
traceback), and no per-input OutputItems are emitted. -/
theorem startup_failure_single_report (msg moduleName : String)
    (call : Callable) (responses : List FetchResult) :
    (containerMain (.importFailed msg) call responses).outputs = [] ∧
    (containerMain (.importFailed msg) call responses).error = none ∧
    (containerMain (.importFailed msg) call responses).taskResult =
      some (importFailureTaskResult msg) ∧
    (importFailureTaskResult msg).status = GenericStatus.failure ∧
    (importFailureTaskResult msg).data = Payload.importError msg ∧
    (containerMain (.missingMainGuard moduleName) call responses).outputs = [] ∧
    (containerMain (.missingMainGuard moduleName) call responses).taskResult =
      some (missingGuardTaskResult moduleName) ∧
    (missingGuardTaskResult moduleName).status = GenericStatus.failure ∧
    (∃ m, (missingGuardTaskResult moduleName).data = Payload.invalidError m) ∧
    (∃ pre post, (missingGuardTaskResult moduleName).traceback =
      pre ++ mainGuardString ++ post) :=
  ⟨rfl, rfl, rfl, rfl, rfl, rfl, rfl, rfl, ⟨_, rfl⟩,
    ⟨"Traceback: module " ++ moduleName ++ " has no ", " block", rfl⟩⟩

/-- Claim C8: a transport failure raised while fetching inputs is fatal
to the whole invocation — it is not retried, it propagates out of the
entrypoint, and no inputs beyond those fetched before the failure are
dispatched (the run's outputs are exactly those of the pre-failure
batches, whatever follows the failure in the stream). -/
theorem transport_failure_fatal (call : Callable)
    (batches : List (List WorkItem)) (status : String)
    (rest : List FetchResult)
    (hnk : ∀ b ∈ batches, ∀ u ∈ b, u.killSwitch = false)
    (hne : ∀ b ∈ batches, (processItems call b).2 = none) :
    containerMain .success call
        (batches.map FetchResult.batch ++
          FetchResult.transportError status :: rest) =
      { taskResult := none,
        outputs := (batches.map fun b => (processItems call b).1).flatten,
        error := some (RunError.transport status) } := by
  simp [containerMain, runLoop_transport call batches status rest hnk hne]

/-- Witness for C8: one clean batch, then a transport failure. -/
theorem transport_failure_fatal_witness :
    (∀ b ∈ c8SampleBatches, ∀ u ∈ b, u.killSwitch = false) ∧
    (∀ b ∈ c8SampleBatches, (processItems c8SampleCall b).2 = none) ∧
    containerMain .success c8SampleCall
        (c8SampleBatches.map FetchResult.batch ++
          FetchResult.transportError "UNAVAILABLE" :: []) =
      { taskResult := none,
        outputs := (c8SampleBatches.map
          fun b => (processItems c8SampleCall b).1).flatten,
        error := some (RunError.transport "UNAVAILABLE") } :=
  ⟨by decide, by decide,
    transport_failure_fatal c8SampleCall c8SampleBatches "UNAVAILABLE" []
      (by decide) (by decide)⟩

/-- Claim C9: when the handshake fails with a status other than
UNAUTHENTICATED or UNAVAILABLE, start re-raises the original transport
error unchanged — a fourth, unclassified failure mode. -/
theorem handshake_other_error_reraised (c : Client) (code : StatusCode)
    (details : String)
    (h1 : code ≠ StatusCode.unauthenticated)
    (h2 : code ≠ StatusCode.unavailable) :
    (clientStart c (HandshakeOutcome.rpcError code details)).2 =
      some (ClientError.rpcError code details) := by
  cases code with
  | unauthenticated => exact absurd rfl h1
  | unavailable => exact absurd rfl h2
  | other n => rfl

/-- Witness for C9 at an INTERNAL status. -/
theorem handshake_other_error_reraised_witness :
    StatusCode.other "INTERNAL" ≠ StatusCode.unauthenticated ∧
    StatusCode.other "INTERNAL" ≠ StatusCode.unavailable ∧
    (clientStart (initClient "srv")
        (HandshakeOutcome.rpcError (StatusCode.other "INTERNAL") "boom")).2 =
      some (ClientError.rpcError (StatusCode.other "INTERNAL") "boom") :=
  ⟨by decide, by decide,
    handshake_other_error_reraised (initClient "srv")
      (StatusCode.other "INTERNAL") "boom" (by decide) (by decide)⟩

/-- Claim C10: the heartbeat loop is spawned exactly when start succeeds
(so no failure path ever starts it), and whenever it is spawned the
heartbeat request carries the non-empty client id assigned by the
handshake. -/
theorem heartbeat_spawned_only_on_success (url : String)
    (outcome : HandshakeOutcome) :
    ((clientStart (initClient url) outcome).1.heartbeatStarted = true ↔
      (clientStart (initClient url) outcome).2 = none) ∧
    ((clientStart (initClient url) outcome).1.heartbeatStarted = true →
      ∃ cid, (clientStart (initClient url) outcome).1.clientId = some cid ∧
        cid ≠ "" ∧
        (clientHeartbeat (clientStart (initClient url) outcome).1).clientId = cid) := by
  cases outcome with
  | rpcError code details => cases code <;> simp [clientStart, initClient]
  | response cid =>
    by_cases h : cid = "" <;>
      simp [clientStart, clientHeartbeat, initClient, h]

/-- Witness for C10 at a successful handshake. -/
theorem heartbeat_spawned_only_on_success_witness :
    (clientStart (initClient "srv")
        (HandshakeOutcome.response "cl-1")).1.heartbeatStarted = true ∧
    ∃ cid, (clientStart (initClient "srv")
        (HandshakeOutcome.response "cl-1")).1.clientId = some cid ∧
      cid ≠ "" ∧
      (clientHeartbeat (clientStart (initClient "srv")
        (HandshakeOutcome.response "cl-1")).1).clientId = cid :=
  ⟨by decide,
    (heartbeat_spawned_only_on_success "srv"
      (HandshakeOutcome.response "cl-1")).2 (by decide)⟩

end ModalClient
